import Mathlib

/-!
# Verification of `openag firmware` code generation (src/openag/cli/firmware/__init__.py)

Shallow embedding of the `run` and `run_module` commands of the OpenAg firmware
CLI.  Python dicts are modelled as insertion lists with last-write-wins lookup,
mutation of a dict-valued variable is modelled by a function giving the
variable's value after the statement, and exceptions are modelled with
`Except` / an error component in the result.  I/O actions that the properties
talk about (reading the module database, installing dependencies, writing the
generated artifact) are reflected as events in an explicit trace.

String-valued operations of the Python code (`str.lower`, `str.split`,
`int(...)`, `float(...)`) are modelled over `String.data` (lists of
characters) so that every definition evaluates by kernel reduction.
-/

set_option autoImplicit false

namespace OpenAg

/-! ## Dictionaries

Python dict semantics for the pieces we need: a dict is the list of its
insertions, and lookup returns the value of the LAST insertion of a key
(`d[k] = v` overwrites).  `dgetFirst` is first-match lookup on a list;
`dget` looks the list up from the most recent insertion backwards. -/

/-- Decidable equality of `Except` results, component-wise. -/
instance {ε α : Type} [DecidableEq ε] [DecidableEq α] : DecidableEq (Except ε α) := by
  intro x y
  cases x <;> cases y
  case error.error a b =>
    exact if h : a = b then .isTrue (by rw [h]) else .isFalse (by simpa using h)
  case error.ok a b => exact .isFalse (by simp)
  case ok.error a b => exact .isFalse (by simp)
  case ok.ok a b =>
    exact if h : a = b then .isTrue (by rw [h]) else .isFalse (by simpa using h)

/-- First-match association lookup. -/
def dgetFirst {α : Type} : List (String × α) → String → Option α
  | [], _ => none
  | p :: rest, k => if p.1 = k then some p.2 else dgetFirst rest k

/-- Python-dict lookup: the value of the last insertion of `k` wins. -/
def dget {α : Type} (d : List (String × α)) (k : String) : Option α :=
  dgetFirst d.reverse k

/-! ## Python string helpers -/

/-- Python `str.lower()` (ASCII, as applied to the byte strings this CLI reads). -/
def pyLower (s : String) : String := ⟨s.data.map Char.toLower⟩

/-- Python `str.split(sep)` for a single-character separator, on character lists:
`"a:b:c".split(":") == ["a","b","c"]`, `"ab".split(":") == ["ab"]`,
`"".split(":") == [""]`. -/
def splitCh (sep : Char) : List Char → List (List Char)
  | [] => [[]]
  | c :: rest =>
    if c = sep then [] :: splitCh sep rest
    else match splitCh sep rest with
      | [] => [[c]]
      | p :: ps => (c :: p) :: ps

/-- The whitespace characters `str.strip()`-style parsing of `int()` /
`float()` ignores at both ends. -/
def isPyWhitespace (c : Char) : Bool :=
  c = ' ' || c = '\t' || c = '\n' || c = '\r' || c = '\x0b' || c = '\x0c'

/-- Test `_id.startswith("_")`: whether the string's first character is `'_'`. -/
def startsWithUnderscore (s : String) : Bool :=
  match s.data with
  | c :: _ => c = '_'
  | [] => false

/-- Strip leading and trailing whitespace from a character list. -/
def stripWS (cs : List Char) : List Char :=
  ((cs.dropWhile isPyWhitespace).reverse.dropWhile isPyWhitespace).reverse

/-- Value of a list of decimal digit characters. -/
def digitsToNat (cs : List Char) : Nat :=
  cs.foldl (fun acc c => 10 * acc + (c.toNat - '0'.toNat)) 0

/-- Python `int(s)` on a string: optional surrounding whitespace, optional
sign, then one or more decimal digits; anything else raises `ValueError`
(modelled as `none`). -/
def pythonParseInt (s : String) : Option Int :=
  let t := stripWS s.data
  let (neg, ds) :=
    match t with
    | '-' :: r => (true, r)
    | '+' :: r => (false, r)
    | r => (false, r)
  if ds.isEmpty then none
  else if ds.all Char.isDigit then
    some (if neg then -(digitsToNat ds : Int) else (digitsToNat ds : Int))
  else none

/-- After the mantissa of a float literal: digits [ "." digits* ] | "." digits+.
Returns the unconsumed rest, or `none` when no digit was seen. -/
def floatMantissaRest (cs : List Char) : Option (List Char) :=
  let intpart := cs.takeWhile Char.isDigit
  let rest1 := cs.dropWhile Char.isDigit
  match rest1 with
  | '.' :: r2 =>
    let frac := r2.takeWhile Char.isDigit
    if intpart.isEmpty && frac.isEmpty then none
    else some (r2.dropWhile Char.isDigit)
  | _ => if intpart.isEmpty then none else some rest1

/-- The optional exponent part of a float literal: ("e"|"E") sign? digits+,
which must consume the whole rest. -/
def floatExpOk (cs : List Char) : Bool :=
  match cs with
  | [] => true
  | c :: r =>
    if c = 'e' || c = 'E' then
      let r2 := match r with
        | '+' :: t => t
        | '-' :: t => t
        | t => t
      !(r2.takeWhile Char.isDigit).isEmpty && (r2.dropWhile Char.isDigit).isEmpty
    else false

/-- Python `float(s)`: whether the string parses as a float literal
(optional whitespace, optional sign, mantissa with at least one digit,
optional exponent, also `inf` / `infinity` / `nan` in any case).  The
numeric value is never inspected by this CLI, only parse success. -/
def pythonFloatParseable (s : String) : Bool :=
  let t := stripWS s.data
  let body := match t with
    | '+' :: r => r
    | '-' :: r => r
    | r => r
  let lower := body.map Char.toLower
  if lower = "inf".data || lower = "infinity".data || lower = "nan".data then true
  else
    match floatMantissaRest body with
    | none => false
    | some rest => floatExpOk rest

/-! ## Argument coercion (`run_module`, lines 283-298)

```
val = arguments[i]
arg_info = module_type["arguments"][i]
if arg_info["type"] == "int":
    val = int(val)
elif arg_info["type"] == "float":
    val = float(val)
elif arg_info["type"] == "bool":
    if val.lower() == "true": val = True
    elif val.lower() == "false": val = False
    else: raise click.BadParameter("Argument number {} ...".format(i))
```

`int(val)` / `float(val)` raise a bare `ValueError` that nothing in the
command catches; only the bool branch raises the classified
`click.BadParameter` naming the positional index. -/

/-- A coerced argument value. -/
inductive ArgValue
  | vInt (n : Int)
  | vFloat (srcRepr : String)
  | vBool (b : Bool)
  | vStr (s : String)
  deriving DecidableEq, Repr

/-- How argument coercion can fail: an uncaught `ValueError` escaping from
`int()`/`float()`, or the classified `click.BadParameter` carrying the
positional index (bool branch only). -/
inductive CoerceError
  | uncaughtValueError (ty : String) (s : String)
  | badParameter (index : Nat)
  deriving DecidableEq, Repr

/-- Coerce the `i`-th supplied argument string `v` to the declared type
string `ty` (any type other than `"int"`/`"float"`/`"bool"` leaves the
value a string). -/
def coerceArg (ty : String) (v : String) (i : Nat) : Except CoerceError ArgValue :=
  if ty = "int" then
    match pythonParseInt v with
    | some n => .ok (.vInt n)
    | none => .error (.uncaughtValueError "int" v)
  else if ty = "float" then
    if pythonFloatParseable v then .ok (.vFloat v)
    else .error (.uncaughtValueError "float" v)
  else if ty = "bool" then
    if pyLower v = "true" then .ok (.vBool true)
    else if pyLower v = "false" then .ok (.vBool false)
    else .error (.badParameter i)
  else .ok (.vStr v)

/-! ## Data model

`FirmwareModuleType` documents (openag.models validates them with voluptuous;
that library is outside this file's scope, so a type document is modelled
directly as its validated record).  Only the fields the firmware commands
read are carried: `inputs`/`outputs` with their category lists
(lines 160-172) and the ordered `arguments` declarations (lines 276-299). -/

/-- One entry of a module's `inputs` or `outputs` mapping: the fields the
capability filter reads, i.e. its list of declared categories. -/
structure EntryInfo where
  categories : List String
  deriving DecidableEq, Repr

/-- An argument declaration of a module type: its `type` field
(`"int"`, `"float"`, `"bool"` or anything else, which is left a string). -/
structure ArgDecl where
  atype : String
  deriving DecidableEq, Repr

/-- A firmware module type document. -/
structure TypeRec where
  inputs : List (String × EntryInfo)
  outputs : List (String × EntryInfo)
  arguments : List ArgDecl
  deriving DecidableEq, Repr

/-- A firmware module instance document (`FirmwareModule`): the type it
references and its bound argument values. -/
structure InstanceDoc where
  typeId : String
  args : List ArgValue
  deriving DecidableEq, Repr

/-- The per-module record produced by synthesis, as the capability filter
sees it: `mod_info["inputs"]` and `mod_info["outputs"]`. -/
structure ModInfo where
  inputs : List (String × EntryInfo)
  outputs : List (String × EntryInfo)
  deriving DecidableEq, Repr

/-! ## Capability filter (lines 159-172)

```
for mod_name, mod_info in modules.items():
    for input_name, input_info in mod_info["inputs"].items():
        for c in input_info["categories"]:
            if c in categories:
                break
        else:
            del mod_info["inputs"][input_name]
    ... (same for outputs)
```

The `for`/`else` keeps an entry iff some declared category is in the enabled
list (`break` reached), i.e. iff `categories.any (enabled.contains)`.  This is
Python 2, where `.items()` returns a snapshot list, so deleting entries while
iterating removes exactly the non-matching ones.  The loop mutates each
`mod_info` in place; `modulesAfterFilter` is the value of the `modules`
variable AFTER the loop has run. -/

/-- An entry survives the filter iff one of its categories is enabled. -/
def retainEntry (enabled : List String) (info : EntryInfo) : Bool :=
  info.categories.any (fun c => enabled.contains c)

/-- The filtered `inputs`/`outputs` sub-mapping of one module. -/
def filterEntries (enabled : List String) (es : List (String × EntryInfo)) :
    List (String × EntryInfo) :=
  es.filter (fun e => retainEntry enabled e.2)

/-- One module's value after the two inner loops. -/
def filterModInfo (enabled : List String) (m : ModInfo) : ModInfo :=
  { inputs := filterEntries enabled m.inputs,
    outputs := filterEntries enabled m.outputs }

/-- Value of the `modules` dict after the category-filter loop
(lines 160-172).  The loop deletes entries inside each `mod_info` in place:
no new mapping is created, this is the new value of the existing one. -/
def modulesAfterFilter (enabled : List String)
    (modules : List (String × ModInfo)) : List (String × ModInfo) :=
  modules.map (fun p => (p.1, filterModInfo enabled p.2))

/-! ## Writing the generated artifact (lines 221-222)

```
with open(src_file_path, "w+") as f:
    codegen.write_to(f)
```

`open(path, "w+")` truncates the file at `src/src.ino` immediately; the text
is then streamed to the already-open handle.  There is no temporary file and
no rename. -/

/-- The contents of the file at the final artifact path `src/src.ino`. -/
structure FileState where
  content : String
  deriving DecidableEq, Repr

/-- Opening `open(src_file_path, "w+")` truncates the artifact file in place. -/
def openTruncate (_fs : FileState) : FileState := ⟨""⟩

/-- Concatenation of the chunks a writer has emitted so far. -/
def strConcat : List String → String
  | [] => ""
  | s :: rest => s ++ strConcat rest

/-- Modelled from the spec: `CodeGen.write_to` (class `CodeGen` from `base`,
not under src/) renders the source and streams it to the open handle; the
generated text is the concatenation of the chunks contributed by the
emission hooks.  Appending the first `k` chunks models a plugin raising
during the `k+1`-st emission hook. -/
def writePrefix (chunks : List String) (k : Nat) (fs : FileState) : FileState :=
  ⟨fs.content ++ strConcat (chunks.take k)⟩

/-- State of the artifact file when the previous artifact content was `prev`,
the new source consists of `chunks`, and a plugin raised after `k` chunks
had been written: `run` opens the final path with `"w+"` (truncating) and
streams until the exception propagates. -/
def artifactAfterPluginFailure (prev : String) (chunks : List String)
    (k : Nat) : FileState :=
  writePrefix chunks k (openTruncate ⟨prev⟩)

/-! ## Plugin resolution (lines 177-202)

```
plugin_cls = plugin_map.get(plugin_name, None)
if not plugin_cls:
    try:
        plugin_module_name, plugin_cls_name = plugin_name.split(":")
        plugin_module = import_module(plugin_module_name)
        plugin_cls = getattr(plugin_module, plugin_cls_name)
    except ValueError:   -> '"{}" is not a valid plugin path'
    except ImportError:  -> '"{}" does not name a Python module'
    except AttributeError: -> 'Module "{}" does not contain the class "{}"'
```

`plugin_map` comes from the repository's `plugins` module (not under src/)
and maps built-in names to plugin classes; Python class objects are truthy,
so `if not plugin_cls` is taken exactly when the name is absent from the
table.  The unpacking `a, b = name.split(":")` raises `ValueError` iff the
split does not have exactly two parts. -/

/-- A plugin class object (opaque: only its identity matters here). -/
structure PluginCls where
  clsId : String
  deriving DecidableEq, Repr

/-- The Python environment plugin resolution consults: the built-in
`plugin_map` table and, for dynamic resolution, the importable modules with
their class attributes. -/
structure PluginEnv where
  builtins : List (String × PluginCls)
  importableModules : List (String × List (String × PluginCls))
  deriving Repr

/-- The three user-facing plugin resolution errors. -/
inductive PluginError
  | unknownPlugin (name : String)
  | moduleNotFound (moduleName : String)
  | classNotFound (moduleName clsName : String)
  deriving DecidableEq, Repr

/-- Resolve one plugin name.  The second component records whether the
dynamic `<module-path>:<class-name>` import path was exercised. -/
def resolvePlugin (env : PluginEnv) (name : String) :
    Except PluginError PluginCls × Bool :=
  match dget env.builtins name with
  | some cls => (.ok cls, false)
  | none =>
    match splitCh ':' name.data with
    | [m, c] =>
      match dget env.importableModules ⟨m⟩ with
      | none => (.error (.moduleNotFound ⟨m⟩), true)
      | some attrs =>
        match dget attrs ⟨c⟩ with
        | none => (.error (.classNotFound ⟨m⟩ ⟨c⟩), true)
        | some cls => (.ok cls, true)
    | _ => (.error (.unknownPlugin name), true)

/-- The `for plugin_name in plugin` loop: resolve each name in order,
aborting at the first failure. -/
def resolvePlugins (env : PluginEnv) : List String → Except PluginError (List PluginCls)
  | [] => .ok []
  | n :: rest =>
    match (resolvePlugin env n).1 with
    | .error e => .error e
    | .ok c =>
      match resolvePlugins env rest with
      | .error e => .error e
      | .ok cs => .ok (c :: cs)

/-! ## The `run` command pipeline (lines 92-230)

Side effects that the properties mention are reflected as `Event`s, emitted
in the order the code performs them; an aborted run's trace stops at the
raising statement. -/

/-- Observable actions of `run` / `run_module`, in program order. -/
inductive Event
  | readTypeDb
  | readModuleDb
  | synthesize
  | capabilityFilter
  | pioLibInstall (dep : String)
  | gitFetch (dep : String)
  | writeArtifact
  | compileProject
  | initProject
  | symlink (name : String)
  | writeBuildModulesJson
  deriving DecidableEq, Repr

/-- The exceptions the two commands can raise (each a `click` exception or
an uncaught `ValueError` from coercion). -/
inductive RunError
  | noModules
  | unknownType (instanceId typeId : String)
  | pluginError (e : PluginError)
  | tooManyArguments (got expected : Nat)
  | coerce (e : CoerceError)
  | compilationFailed
  deriving DecidableEq, Repr

/-- The local CouchDB server: its firmware module type database and its
firmware module (instance) database. -/
structure Server where
  typeDb : List (String × TypeRec)
  moduleDb : List (String × InstanceDoc)
  deriving Repr

/-- Inputs of one invocation of `run` (flag values and the state of the
collaborators it consults).  `pioDeps` / `gitDeps` stand for the dependency
closures `codegen.all_pio_dependencies()` / `codegen.all_git_dependencies()`
(class `CodeGen` from `base`, not under src/). -/
structure RunArgs where
  categories : List String
  modulesFileDoc : Option (List (String × InstanceDoc))
  localServer : Option Server
  libDirs : List (String × Option TypeRec)
  pluginNames : List String
  pluginEnv : PluginEnv
  pioDeps : List String
  gitDeps : List String
  compileOk : Bool
  deriving Repr

/-- Loading the module type registry (lines 107-135): first every
non-`_`-prefixed document of the server's type database (when a local
server is configured), then every `lib/<dir>/module.json` found under the
project's lib folder, keyed by directory name.  Later insertions override
earlier ones for the same identifier. -/
def loadModuleTypes (serverTypes : Option (List (String × TypeRec)))
    (libDirs : List (String × Option TypeRec)) : List (String × TypeRec) :=
  (match serverTypes with
    | some db => db.filter (fun p => !(startsWithUnderscore p.1))
    | none => []) ++
  libDirs.filterMap (fun p => p.2.map (fun t => (p.1, t)))

/-- Loading the module instances (lines 137-154): from the `-f` modules
file when given, else from the server's module database (skipping
`_`-prefixed ids), else `click.ClickException("No modules specified...")`.
The returned event list records whether the server's module database was
read. -/
def loadModules (mfile : Option (List (String × InstanceDoc)))
    (server : Option Server) :
    Except RunError (List (String × InstanceDoc) × List Event) :=
  match mfile with
  | some docs => .ok (docs, [])
  | none =>
    match server with
    | some srv =>
      .ok (srv.moduleDb.filter (fun p => !(startsWithUnderscore p.1)), [.readModuleDb])
    | none => .error .noModules

/-- Modelled from the spec: `synthesize_firmware_module_info`
(`openag.utils`, not under src/) merges each instance with its declared
type — inputs and outputs come from the type with their categories; an
instance whose type is absent from the registry fails with
`UnknownTypeError(instance_id, type_id)`.  Only the parts the later stages
read are modelled. -/
def synthesizeInfo (instances : List (String × InstanceDoc))
    (types : List (String × TypeRec)) :
    Except RunError (List (String × ModInfo)) :=
  match instances with
  | [] => .ok []
  | p :: rest =>
    match dget types p.2.typeId with
    | none => .error (.unknownType p.1 p.2.typeId)
    | some t =>
      match synthesizeInfo rest types with
      | .error e => .error e
      | .ok ms => .ok ((p.1, ⟨t.inputs, t.outputs⟩) :: ms)

/-- Events of the module-type loading phase: the server's type database is
iterated exactly when a local server is configured (lines 110-120). -/
def typeEvents (srv : Option Server) : List Event :=
  match srv with
  | some _ => [.readTypeDb]
  | none => []

/-- The `run` command (lines 92-230), from type loading to the
`platformio run` call: returns the trace of observable actions and the
exception that aborted the run, if any. -/
def run (a : RunArgs) : List Event × Option RunError :=
  let moduleTypes := loadModuleTypes (a.localServer.map Server.typeDb) a.libDirs
  match loadModules a.modulesFileDoc a.localServer with
  | .error e => (typeEvents a.localServer, some e)
  | .ok (modules0, mev) =>
    match synthesizeInfo modules0 moduleTypes with
    | .error e => (typeEvents a.localServer ++ mev, some e)
    | .ok modules1 =>
      let _modules2 := modulesAfterFilter a.categories modules1
      let ev3 := typeEvents a.localServer ++ mev ++ [.synthesize, .capabilityFilter]
      match resolvePlugins a.pluginEnv a.pluginNames with
      | .error e => (ev3, some (.pluginError e))
      | .ok _plugins =>
        let ev4 := ev3 ++ a.pioDeps.map Event.pioLibInstall
          ++ a.gitDeps.map Event.gitFetch ++ [.writeArtifact, .compileProject]
        (ev4, if a.compileOk then none else some .compilationFailed)

/-! ## The `run_module` command (lines 238-314) -/

/-- The argument-parsing loop (lines 276-299), carried out with the
original lengths `nargs = len(arguments)` in hand and `i` the current
position.  At each position the code first checks
`i >= len(module_type["arguments"])` — raising the "Too many module
arguments specified. (Got {}, expected {})" `ClickException` — and only
then coerces `arguments[i]`. -/
def parseArgsFrom (nargs : Nat) (i : Nat) :
    List ArgDecl → List String → Except RunError (List ArgValue)
  | _, [] => .ok []
  | [], _ :: _ => .error (.tooManyArguments nargs i)
  | d :: ds, v :: vs =>
    match coerceArg d.atype v i with
    | .error e => .error (.coerce e)
    | .ok val =>
      match parseArgsFrom nargs (i + 1) ds vs with
      | .error e => .error e
      | .ok vals => .ok (val :: vals)

/-- The `real_args` synthesis of `run_module`: parse `arguments` against the
type's declared argument list. -/
def parseArguments (declared : List ArgDecl) (arguments : List String) :
    Except RunError (List ArgValue) :=
  parseArgsFrom arguments.length 0 declared arguments

/-- The `run_module` command (lines 238-314): initialize the build project,
symlink the module sources, parse the arguments, write the build
`modules.json`, and invoke `run` on it with the modules file forced. -/
def runModule (moduleType : TypeRec) (arguments : List String)
    (sourceFiles : List String) (a : RunArgs) : List Event × Option RunError :=
  let ev0 : List Event := .initProject :: sourceFiles.map Event.symlink
  match parseArguments moduleType.arguments arguments with
  | .error e => (ev0, some e)
  | .ok realArgs =>
    let a' := { a with
      modulesFileDoc := some [("module", ⟨"module", realArgs⟩)],
      libDirs := a.libDirs ++ [("module", some moduleType)] }
    let (ev1, err) := run a'
    (ev0 ++ [.writeBuildModulesJson] ++ ev1, err)

/-! ## Concrete fixtures used by witnesses and counterexamples -/

/-- A plugin environment with one built-in and one importable module. -/
def sampleEnv : PluginEnv := ⟨[("builtin1", ⟨"B1"⟩)], [("mymod", [("MyCls", ⟨"C"⟩)])]⟩

/-- A module type with one sensor input, one calibration output and one
declared bool argument. -/
def sampleType : TypeRec :=
  ⟨[("i1", ⟨["sensors"]⟩)], [("o1", ⟨["calibration"]⟩)], [⟨"bool"⟩]⟩

/-- A local server holding `sampleType` and one instance of it. -/
def sampleServer : Server := ⟨[("temp", sampleType)], [("m1", ⟨"temp", []⟩)]⟩

/-- A run configuration reading from `sampleServer`. -/
def sampleArgs : RunArgs :=
  ⟨["sensors"], none, some sampleServer, [], [], sampleEnv, ["dep1"], ["git1"], true⟩

/-- Configuration `sampleArgs` asking for an unresolvable plugin name. -/
def samplePluginErrorArgs : RunArgs := { sampleArgs with pluginNames := ["nope"] }

/-! ## Helper lemmas -/

/-- A mapped list is unchanged iff the function fixes every element. -/
theorem map_fixpoint_iff {α : Type} (f : α → α) (l : List α) :
    l.map f = l ↔ ∀ a ∈ l, f a = a := by
  induction l with
  | nil => simp
  | cons x xs ih => simp [ih]

/-- The character data of a chunk concatenation. -/
theorem strConcat_data (l : List String) :
    (strConcat l).data = (l.map String.data).flatten := by
  induction l with
  | nil => rfl
  | cons s rest ih => simp [strConcat, String.data_append, ih]

/-- Value of `run` when module loading fails. -/
theorem run_eq_loadError (a : RunArgs) (e : RunError)
    (hlm : loadModules a.modulesFileDoc a.localServer = .error e) :
    run a = (typeEvents a.localServer, some e) := by
  simp [run, hlm]

/-- Value of `run` when synthesis fails. -/
theorem run_eq_synthError (a : RunArgs) (ms : List (String × InstanceDoc))
    (mEv : List Event) (e : RunError)
    (hlm : loadModules a.modulesFileDoc a.localServer = .ok (ms, mEv))
    (hsy : synthesizeInfo ms (loadModuleTypes (a.localServer.map Server.typeDb) a.libDirs) = .error e) :
    run a = (typeEvents a.localServer ++ mEv, some e) := by
  simp [run, hlm, hsy]

/-- Value of `run` when plugin resolution fails. -/
theorem run_eq_resolveError (a : RunArgs) (ms : List (String × InstanceDoc))
    (mEv : List Event) (ms1 : List (String × ModInfo)) (e : PluginError)
    (hlm : loadModules a.modulesFileDoc a.localServer = .ok (ms, mEv))
    (hsy : synthesizeInfo ms (loadModuleTypes (a.localServer.map Server.typeDb) a.libDirs) = .ok ms1)
    (hrp : resolvePlugins a.pluginEnv a.pluginNames = .error e) :
    run a = (typeEvents a.localServer ++ mEv ++ [.synthesize, .capabilityFilter],
      some (.pluginError e)) := by
  simp [run, hlm, hsy, hrp]

/-- Value of `run` when every stage succeeds. -/
theorem run_eq_ok (a : RunArgs) (ms : List (String × InstanceDoc))
    (mEv : List Event) (ms1 : List (String × ModInfo)) (ps : List PluginCls)
    (hlm : loadModules a.modulesFileDoc a.localServer = .ok (ms, mEv))
    (hsy : synthesizeInfo ms (loadModuleTypes (a.localServer.map Server.typeDb) a.libDirs) = .ok ms1)
    (hrp : resolvePlugins a.pluginEnv a.pluginNames = .ok ps) :
    run a = (typeEvents a.localServer ++ mEv ++ [.synthesize, .capabilityFilter]
        ++ a.pioDeps.map Event.pioLibInstall ++ a.gitDeps.map Event.gitFetch
        ++ [.writeArtifact, .compileProject],
      if a.compileOk then none else some .compilationFailed) := by
  simp [run, hlm, hsy, hrp]

/-- The only load-time error is the no-modules-specified one. -/
theorem loadModules_error_eq (mf : Option (List (String × InstanceDoc)))
    (srv : Option Server) (e : RunError)
    (h : loadModules mf srv = .error e) : e = .noModules := by
  cases mf with
  | some docs => simp [loadModules] at h
  | none =>
    cases srv with
    | some s => simp [loadModules] at h
    | none => simpa [loadModules] using h.symm

/-- A successful module load reads the module database at most once. -/
theorem loadModules_ok_events (mf : Option (List (String × InstanceDoc)))
    (srv : Option Server) (ms : List (String × InstanceDoc)) (ev : List Event)
    (h : loadModules mf srv = .ok (ms, ev)) : ev = [] ∨ ev = [Event.readModuleDb] := by
  cases mf with
  | some docs =>
    simp [loadModules] at h
    exact Or.inl h.2
  | none =>
    cases srv with
    | some s =>
      simp [loadModules] at h
      exact Or.inr h.2.symm
    | none => simp [loadModules] at h

/-- Synthesis errors are always unknown-type errors. -/
theorem synthesizeInfo_error_shape (l : List (String × InstanceDoc))
    (ts : List (String × TypeRec)) (e : RunError)
    (h : synthesizeInfo l ts = .error e) : ∃ i t, e = .unknownType i t := by
  induction l with
  | nil => simp [synthesizeInfo] at h
  | cons p rest ih =>
    rw [synthesizeInfo] at h
    cases hd : dget ts p.2.typeId with
    | none =>
      rw [hd] at h
      injection h with h2
      exact ⟨p.1, p.2.typeId, h2.symm⟩
    | some t =>
      rw [hd] at h
      cases hs : synthesizeInfo rest ts with
      | error e2 =>
        rw [hs] at h
        injection h with h2
        rw [h2] at hs
        exact ih hs
      | ok ms => rw [hs] at h; cases h

/-- A run aborted by a plugin resolution error stops right after the
capability filter: its trace is the loading events plus synthesis and
filtering. -/
theorem run_pluginError_trace (a : RunArgs) (e : PluginError)
    (h : (run a).2 = some (.pluginError e)) :
    ∃ mEv, (mEv = [] ∨ mEv = [Event.readModuleDb]) ∧
      (run a).1 = typeEvents a.localServer ++ mEv ++
        [Event.synthesize, Event.capabilityFilter] := by
  cases hlm : loadModules a.modulesFileDoc a.localServer with
  | error e1 =>
    rw [run_eq_loadError a e1 hlm] at h
    have := loadModules_error_eq _ _ _ hlm
    subst this
    simp at h
  | ok pr =>
    rcases pr with ⟨ms, mEv⟩
    cases hsy : synthesizeInfo ms (loadModuleTypes (a.localServer.map Server.typeDb) a.libDirs) with
    | error e2 =>
      rw [run_eq_synthError a ms mEv e2 hlm hsy] at h
      obtain ⟨i, t, rfl⟩ := synthesizeInfo_error_shape _ _ _ hsy
      simp at h
    | ok ms1 =>
      cases hrp : resolvePlugins a.pluginEnv a.pluginNames with
      | error e3 =>
        rw [run_eq_resolveError a ms mEv ms1 e3 hlm hsy hrp] at h
        rw [run_eq_resolveError a ms mEv ms1 e3 hlm hsy hrp]
        exact ⟨mEv, loadModules_ok_events _ _ _ _ hlm, rfl⟩
      | ok ps =>
        rw [run_eq_ok a ms mEv ms1 ps hlm hsy hrp] at h
        cases hc : a.compileOk <;> rw [hc] at h <;> simp at h

/-- With more values than declarations the parsing loop always fails. -/
theorem parseArgsFrom_overflow (nargs i : Nat) (ds : List ArgDecl) (vs : List String)
    (h : ds.length < vs.length) : ∃ e, parseArgsFrom nargs i ds vs = .error e := by
  induction ds generalizing i vs with
  | nil =>
    cases vs with
    | nil => simp at h
    | cons v vs' => exact ⟨.tooManyArguments nargs i, rfl⟩
  | cons d ds' ih =>
    cases vs with
    | nil => simp at h
    | cons v vs' =>
      simp only [parseArgsFrom]
      cases hc : coerceArg d.atype v i with
      | error e => exact ⟨.coerce e, rfl⟩
      | ok val =>
        obtain ⟨e, he⟩ := ih (i + 1) vs' (by simpa using h)
        rw [he]
        exact ⟨e, rfl⟩

/-- With more values than declarations and all coercions at declared
positions succeeding, the parsing loop fails with the argument-count
error naming the original lengths. -/
theorem parseArgsFrom_tooMany (nargs i : Nat) (ds : List ArgDecl) (vs : List String)
    (h : ds.length < vs.length)
    (hc : ∀ (j : Nat) (d : ArgDecl) (v : String), ds.get? j = some d →
      vs.get? j = some v → (coerceArg d.atype v (i + j)).isOk = true) :
    parseArgsFrom nargs i ds vs = .error (.tooManyArguments nargs (i + ds.length)) := by
  induction ds generalizing i vs with
  | nil =>
    cases vs with
    | nil => simp at h
    | cons v vs' => simp [parseArgsFrom]
  | cons d ds' ih =>
    cases vs with
    | nil => simp at h
    | cons v vs' =>
      have h0 : (coerceArg d.atype v (i + 0)).isOk = true := hc 0 d v rfl rfl
      rw [Nat.add_zero] at h0
      simp only [parseArgsFrom]
      cases hcv : coerceArg d.atype v i with
      | error e => rw [hcv] at h0; simp [Except.isOk, Except.toBool] at h0
      | ok val =>
        have hrec := ih (i + 1) vs' (by simpa using h) (fun j dd vv hj hv => by
          have := hc (j + 1) dd vv (by simpa using hj) (by simpa using hv)
          rwa [show i + (j + 1) = i + 1 + j by omega] at this)
        rw [hrec]
        have harith : i + 1 + ds'.length = i + (ds'.length + 1) := by omega
        simp [List.length_cons, harith]

end OpenAg

namespace OpenAg

/-- Evaluating `coerceArg` on a declared-bool argument is the three-way
`val.lower()` test of lines 289-298. -/
theorem coerceArg_bool (v : String) (i : Nat) :
    coerceArg "bool" v i =
      (if pyLower v = "true" then .ok (.vBool true)
       else if pyLower v = "false" then .ok (.vBool false)
       else .error (.badParameter i)) := by
  unfold coerceArg
  rw [if_neg (by decide), if_neg (by decide), if_pos rfl]

/-- Evaluating `coerceArg` on a declared-int argument is `int(val)` of line 286. -/
theorem coerceArg_int (v : String) (i : Nat) :
    coerceArg "int" v i =
      (match pythonParseInt v with
       | some n => .ok (.vInt n)
       | none => .error (.uncaughtValueError "int" v)) := by
  unfold coerceArg
  rw [if_pos rfl]

/-- Evaluating `coerceArg` on a declared-float argument is `float(val)` of line 288. -/
theorem coerceArg_float (v : String) (i : Nat) :
    coerceArg "float" v i =
      (if pythonFloatParseable v then .ok (.vFloat v)
       else .error (.uncaughtValueError "float" v)) := by
  unfold coerceArg
  rw [if_neg (by decide), if_pos rfl]

/-- First-match lookup over an appended list. -/
theorem dgetFirst_append {α : Type} (xs ys : List (String × α)) (k : String) :
    dgetFirst (xs ++ ys) k =
      (match dgetFirst xs k with
       | some v => some v
       | none => dgetFirst ys k) := by
  induction xs with
  | nil => rfl
  | cons p rest ih =>
    by_cases h : p.1 = k
    · simp [dgetFirst, h]
    · simp [dgetFirst, h, ih]

/-- On a list with pairwise-distinct keys, first-match lookup finds the
value of any member pair. -/
theorem dgetFirst_of_mem_nodup {α : Type} (l : List (String × α)) (k : String)
    (v : α) (hnd : (l.map Prod.fst).Nodup) (hm : (k, v) ∈ l) :
    dgetFirst l k = some v := by
  induction l with
  | nil => cases hm
  | cons p rest ih =>
    rcases List.mem_cons.mp hm with heq | hmem
    · subst heq
      simp [dgetFirst]
    · have hk : k ∈ rest.map Prod.fst := List.mem_map_of_mem Prod.fst hmem
      have hne : p.1 ≠ k := by
        intro hcontra
        have := (List.nodup_cons.mp hnd).1
        exact this (hcontra ▸ hk)
      simp only [dgetFirst, if_neg hne]
      exact ih (List.nodup_cons.mp hnd).2 hmem

/-- The keys of the lib-folder contribution are a sublist of the lib
directory names. -/
theorem libContribution_keys_sublist (libDirs : List (String × Option TypeRec)) :
    ((libDirs.filterMap (fun p => p.2.map (fun t => (p.1, t)))).map Prod.fst).Sublist
      (libDirs.map Prod.fst) := by
  induction libDirs with
  | nil => simp
  | cons p rest ih =>
    rcases p with ⟨k, od⟩
    cases od with
    | none =>
      simp only [List.filterMap_cons, Option.map_none', List.map_cons]
      exact List.Sublist.cons k ih
    | some t =>
      simp only [List.filterMap_cons, Option.map_some', List.map_cons]
      exact List.Sublist.cons₂ k ih

/-! ## C1 — the capability filter is NOT pure: it mutates the mapping -/

/-- C1 (counterexample): filtering the one-module mapping whose only input
carries category `"calibration"` with enabled categories `["sensors"]`
changes the value of the `modules` mapping — the input sub-mapping of the
module is not left unchanged. -/
theorem c1_filter_mutates_counterexample :
    modulesAfterFilter ["sensors"]
        [("t1", ⟨[("i1", ⟨["calibration"]⟩)], []⟩)] ≠
      [("t1", ⟨[("i1", ⟨["calibration"]⟩)], []⟩)] := by decide

/-- C1 (amended): the category filter loop updates the module mapping in
place (each module's `inputs`/`outputs` sub-mappings have their
non-matching entries deleted); the value of the input mapping is preserved
iff every input and output entry of every module already has at least one
enabled category — whenever some entry's categories are disjoint from the
enabled set, the mapping is changed. -/
theorem c1_filter_inplace_fixpoint_iff (enabled : List String)
    (modules : List (String × ModInfo)) :
    modulesAfterFilter enabled modules = modules ↔
      ∀ p ∈ modules, (∀ e ∈ p.2.inputs, retainEntry enabled e.2 = true) ∧
        (∀ e ∈ p.2.outputs, retainEntry enabled e.2 = true) := by
  unfold modulesAfterFilter
  rw [map_fixpoint_iff]
  refine forall₂_congr fun p _ => ?_
  rcases p with ⟨k, ⟨ins, outs⟩⟩
  simp only [filterModInfo, filterEntries, Prod.mk.injEq, ModInfo.mk.injEq, true_and]
  rw [List.filter_eq_self, List.filter_eq_self]

/-! ## C2 — failure during emission leaves a truncated artifact -/

/-- C2 (counterexample): previous artifact content `"old"`, new source
`"new"` in one chunk, and a plugin raising before the first chunk is
written: the file at the final artifact path holds `""` — neither the
complete previous content nor the complete new content. -/
theorem c2_truncated_artifact_counterexample :
    (artifactAfterPluginFailure "old" ["new"] 0).content ≠ "old" ∧
    (artifactAfterPluginFailure "old" ["new"] 0).content ≠ strConcat ["new"] := by
  decide

/-- C2 (amended): `run` opens the final artifact path with `"w+"`
(truncating it at once) and streams the source into it, so a plugin
raising during emission leaves exactly the already-written prefix of the
new content at the final path (possibly empty) — the previous content is
destroyed, and appending the unwritten chunks would be needed to complete
the new content. -/
theorem c2_failure_leaves_written_part (prev : String) (chunks : List String) (k : Nat) :
    (artifactAfterPluginFailure prev chunks k).content ++
        strConcat (chunks.drop k) = strConcat chunks := by
  unfold artifactAfterPluginFailure writePrefix openTruncate
  apply String.ext
  simp only [String.data_append, strConcat_data, List.nil_append]
  rw [← List.flatten_append, ← List.map_append, List.take_append_drop]

/-! ## C3 — an entry survives the filter iff a declared category is enabled -/

/-- C3: for every module of the mapping, after the capability filter the
module maps to its filtered record, and an input or output entry is present
in the filtered record iff it was present before and at least one of its
declared categories is in the enabled list; an entry with an empty category
list is always dropped. -/
theorem c3_entry_retained_iff (enabled : List String)
    (modules : List (String × ModInfo)) (mname : String) (m : ModInfo)
    (hm : (mname, m) ∈ modules) :
    (mname, filterModInfo enabled m) ∈ modulesAfterFilter enabled modules ∧
    ∀ (k : String) (e : EntryInfo),
      ((k, e) ∈ (filterModInfo enabled m).inputs ↔
        (k, e) ∈ m.inputs ∧ e.categories.any (fun c => enabled.contains c) = true) ∧
      ((k, e) ∈ (filterModInfo enabled m).outputs ↔
        (k, e) ∈ m.outputs ∧ e.categories.any (fun c => enabled.contains c) = true) ∧
      (e.categories = [] → (k, e) ∉ (filterModInfo enabled m).inputs ∧
        (k, e) ∉ (filterModInfo enabled m).outputs) := by
  refine ⟨List.mem_map_of_mem _ hm, fun k e => ⟨?_, ?_, fun hnil => ⟨?_, ?_⟩⟩⟩
  · simp [filterModInfo, filterEntries, List.mem_filter, retainEntry]
  · simp [filterModInfo, filterEntries, List.mem_filter, retainEntry]
  · simp [filterModInfo, filterEntries, List.mem_filter, retainEntry, hnil]
  · simp [filterModInfo, filterEntries, List.mem_filter, retainEntry, hnil]

/-- C3 (witness): the sensor input of `sampleType`-shaped module `"t1"`
survives filtering with `["sensors"]`; its calibration-only entry and an
empty-category entry are dropped. -/
theorem c3_entry_retained_iff_witness :
    ("t1", filterModInfo ["sensors"]
        ⟨[("i1", ⟨["sensors"]⟩)], [("o1", ⟨["calibration"]⟩), ("o2", ⟨[]⟩)]⟩) ∈
      modulesAfterFilter ["sensors"]
        [("t1", ⟨[("i1", ⟨["sensors"]⟩)], [("o1", ⟨["calibration"]⟩), ("o2", ⟨[]⟩)]⟩)] ∧
    ∀ (k : String) (e : EntryInfo),
      ((k, e) ∈ (filterModInfo ["sensors"]
          (⟨[("i1", ⟨["sensors"]⟩)], [("o1", ⟨["calibration"]⟩), ("o2", ⟨[]⟩)]⟩ : ModInfo)).inputs ↔
        (k, e) ∈ [("i1", (⟨["sensors"]⟩ : EntryInfo))] ∧
          e.categories.any (fun c => (["sensors"] : List String).contains c) = true) ∧
      ((k, e) ∈ (filterModInfo ["sensors"]
          (⟨[("i1", ⟨["sensors"]⟩)], [("o1", ⟨["calibration"]⟩), ("o2", ⟨[]⟩)]⟩ : ModInfo)).outputs ↔
        (k, e) ∈ [("o1", (⟨["calibration"]⟩ : EntryInfo)), ("o2", ⟨[]⟩)] ∧
          e.categories.any (fun c => (["sensors"] : List String).contains c) = true) ∧
      (e.categories = [] → (k, e) ∉ (filterModInfo ["sensors"]
          (⟨[("i1", ⟨["sensors"]⟩)], [("o1", ⟨["calibration"]⟩), ("o2", ⟨[]⟩)]⟩ : ModInfo)).inputs ∧
        (k, e) ∉ (filterModInfo ["sensors"]
          (⟨[("i1", ⟨["sensors"]⟩)], [("o1", ⟨["calibration"]⟩), ("o2", ⟨[]⟩)]⟩ : ModInfo)).outputs) :=
  c3_entry_retained_iff ["sensors"]
    [("t1", ⟨[("i1", ⟨["sensors"]⟩)], [("o1", ⟨["calibration"]⟩), ("o2", ⟨[]⟩)]⟩)]
    "t1" ⟨[("i1", ⟨["sensors"]⟩)], [("o1", ⟨["calibration"]⟩), ("o2", ⟨[]⟩)]⟩ (by decide)

end OpenAg

namespace OpenAg

/-! ## C4 — bool coercion accepts case-insensitive true/false only -/

/-- C4: for a declared-bool argument at position `i`, the strings
`"true"`, `"TRUE"` and `"True"` all coerce to boolean true, and any string
that does not lower-case to `"true"` or `"false"` fails with the
`BadParameter` argument-type error naming positional index `i`. -/
theorem c4_bool_coercion (i : Nat) :
    coerceArg "bool" "true" i = .ok (.vBool true) ∧
    coerceArg "bool" "TRUE" i = .ok (.vBool true) ∧
    coerceArg "bool" "True" i = .ok (.vBool true) ∧
    ∀ s : String, pyLower s ≠ "true" → pyLower s ≠ "false" →
      coerceArg "bool" s i = .error (.badParameter i) := by
  refine ⟨?_, ?_, ?_, fun s h1 h2 => ?_⟩
  · rw [coerceArg_bool, if_pos (by decide)]
  · rw [coerceArg_bool, if_pos (by decide)]
  · rw [coerceArg_bool, if_pos (by decide)]
  · rw [coerceArg_bool, if_neg h1, if_neg h2]

/-- C4 (witness): at position 0, `"TRUE"` coerces to true and `"yes"`
fails with the argument-type error naming index 0. -/
theorem c4_bool_coercion_witness :
    coerceArg "bool" "TRUE" 0 = .ok (.vBool true) ∧
    coerceArg "bool" "yes" 0 = .error (.badParameter 0) :=
  ⟨(c4_bool_coercion 0).2.1, (c4_bool_coercion 0).2.2.2 "yes" (by decide) (by decide)⟩

/-! ## C9 — numeric coercion failures are uncaught `ValueError`s -/

/-- C9: for a declared-int or declared-float argument whose string does not
parse, coercion fails with the unclassified uncaught `ValueError`; neither
numeric branch can ever produce the classified `BadParameter` argument
error (that is exclusive to the bool branch). -/
theorem c9_numeric_coercion_unclassified (s : String) (i : Nat) :
    (pythonParseInt s = none →
      coerceArg "int" s i = .error (.uncaughtValueError "int" s)) ∧
    (pythonFloatParseable s = false →
      coerceArg "float" s i = .error (.uncaughtValueError "float" s)) ∧
    ∀ j : Nat, coerceArg "int" s i ≠ .error (.badParameter j) ∧
      coerceArg "float" s i ≠ .error (.badParameter j) := by
  refine ⟨fun h => ?_, fun h => ?_, fun j => ⟨?_, ?_⟩⟩
  · rw [coerceArg_int, h]
  · rw [coerceArg_float, if_neg (by simp [h])]
  · rw [coerceArg_int]
    cases hp : pythonParseInt s <;> simp
  · rw [coerceArg_float]
    cases hf : pythonFloatParseable s <;> simp

/-- C9 (witness): `"abc"` parses as neither int nor float; coercing it at
position 0 under both numeric types yields the uncaught `ValueError`, and
no `BadParameter` with index 7 can arise from those branches. -/
theorem c9_numeric_coercion_unclassified_witness :
    coerceArg "int" "abc" 0 = .error (.uncaughtValueError "int" "abc") ∧
    coerceArg "float" "abc" 0 = .error (.uncaughtValueError "float" "abc") ∧
    coerceArg "int" "abc" 0 ≠ .error (.badParameter 7) :=
  ⟨(c9_numeric_coercion_unclassified "abc" 0).1 (by decide),
   (c9_numeric_coercion_unclassified "abc" 0).2.1 (by decide),
   ((c9_numeric_coercion_unclassified "abc" 0).2.2 7).1⟩

/-! ## C6 — local lib types override server types -/

/-- C6: whenever an identifier is defined both by the remote store and by a
lib directory (directory names being pairwise distinct, as `os.listdir`
yields them), the loaded type registry maps that identifier to the local
lib-directory definition. -/
theorem c6_local_overrides_remote (serverTypes : List (String × TypeRec))
    (libDirs : List (String × Option TypeRec)) (k : String) (t tRemote : TypeRec)
    (hnd : (libDirs.map Prod.fst).Nodup)
    (_hremote : dget serverTypes k = some tRemote)
    (hlocal : (k, some t) ∈ libDirs) :
    dget (loadModuleTypes (some serverTypes) libDirs) k = some t := by
  unfold loadModuleTypes dget
  rw [List.reverse_append, dgetFirst_append]
  have hmem : (k, t) ∈
      (libDirs.filterMap (fun p => p.2.map (fun t => (p.1, t)))).reverse := by
    rw [List.mem_reverse, List.mem_filterMap]
    exact ⟨(k, some t), hlocal, rfl⟩
  have hnd' : (((libDirs.filterMap
      (fun p => p.2.map (fun t => (p.1, t)))).reverse).map Prod.fst).Nodup := by
    rw [List.map_reverse, List.nodup_reverse]
    exact ((libContribution_keys_sublist libDirs).nodup hnd)
  rw [dgetFirst_of_mem_nodup _ k t hnd' hmem]

/-- C6 (witness): identifier `"temp"` is defined by the server (as
`sampleType`) and by the lib folder (as the argument-free empty type); the
registry maps it to the lib version. -/
theorem c6_local_overrides_remote_witness :
    dget [("temp", sampleType)] "temp" = some sampleType ∧
    dget (loadModuleTypes (some [("temp", sampleType)])
        [("temp", some (⟨[], [], []⟩ : TypeRec))]) "temp" =
      some (⟨[], [], []⟩ : TypeRec) :=
  ⟨by decide,
   c6_local_overrides_remote [("temp", sampleType)]
     [("temp", some ⟨[], [], []⟩)] "temp" ⟨[], [], []⟩ sampleType
     (by decide) (by decide) (by decide)⟩

end OpenAg

namespace OpenAg

/-! ## C5 — too many arguments abort the run, count error unless an earlier
coercion fails first -/

/-- C5 (counterexample): the type declares one bool argument and the
instance supplies two values, the first of which (`"zzz"`) fails bool
coercion; the run fails with the coercion `BadParameter` error at index 0,
NOT with the argument-count error the claim promises. -/
theorem c5_coercion_preempts_count_counterexample :
    (1 : Nat) < 2 ∧
    (runModule ⟨[], [], [⟨"bool"⟩]⟩ ["zzz", "true"] [] sampleArgs).2 =
      some (.coerce (.badParameter 0)) ∧
    (runModule ⟨[], [], [⟨"bool"⟩]⟩ ["zzz", "true"] [] sampleArgs).2 ≠
      some (.tooManyArguments 2 1) := by decide

/-- C5 (amended): whenever an instance supplies more arguments than its
type declares, the run fails before any dependency installation or any
write to the artifact path; the failure is the argument-count error naming
the supplied and declared counts provided every argument at a declared
position coerces successfully — an earlier coercion failure aborts the run
with that coercion error instead (still before any install or write). -/
theorem c5_argument_count_abort (mt : TypeRec) (args : List String)
    (files : List String) (a : RunArgs)
    (hcount : mt.arguments.length < args.length) :
    ((runModule mt args files a).2 ≠ none ∧
      Event.writeArtifact ∉ (runModule mt args files a).1 ∧
      ∀ d, Event.pioLibInstall d ∉ (runModule mt args files a).1 ∧
        Event.gitFetch d ∉ (runModule mt args files a).1) ∧
    ((∀ (j : Nat) (d : ArgDecl) (v : String), mt.arguments.get? j = some d →
        args.get? j = some v → (coerceArg d.atype v j).isOk = true) →
      (runModule mt args files a).2 =
        some (.tooManyArguments args.length mt.arguments.length)) := by
  obtain ⟨e, he⟩ := parseArgsFrom_overflow args.length 0 mt.arguments args hcount
  have hrm : runModule mt args files a =
      (.initProject :: files.map Event.symlink, some e) := by
    simp [runModule, parseArguments, he]
  constructor
  · rw [hrm]
    refine ⟨by simp, by simp, fun d => ⟨?_, ?_⟩⟩ <;> simp
  · intro hc
    have hpa : parseArguments mt.arguments args =
        .error (.tooManyArguments args.length mt.arguments.length) := by
      have := parseArgsFrom_tooMany args.length 0 mt.arguments args hcount
        (fun j d v hj hv => by simpa using hc j d v hj hv)
      simpa [parseArguments] using this
    simp [runModule, hpa]

/-- C5 (witness): two coercible values against a one-argument type make
`run_module` fail with the count error `(Got 2, expected 1)`, with no
install or artifact-write event in its trace. -/
theorem c5_argument_count_abort_witness :
    (1 : Nat) < 2 ∧
    Event.writeArtifact ∉ (runModule ⟨[], [], [⟨"bool"⟩]⟩ ["true", "false"] [] sampleArgs).1 ∧
    (runModule ⟨[], [], [⟨"bool"⟩]⟩ ["true", "false"] [] sampleArgs).2 =
      some (.tooManyArguments 2 1) := by
  have h := c5_argument_count_abort ⟨[], [], [⟨"bool"⟩]⟩ ["true", "false"] []
    sampleArgs (by decide)
  refine ⟨by decide, h.1.2.1, h.2 ?_⟩
  intro j d v hj hv
  cases j with
  | zero =>
    simp only [List.get?] at hj hv
    injection hj with hj'
    injection hv with hv'
    rw [← hj', ← hv']
    decide
  | succ n => simp [List.get?] at hj

/-! ## C7 — plugin resolution failures fall into exactly three classified
errors, each aborting before install or write -/

/-- C7: for a plugin name not in the built-in table, resolution fails with
`UnknownPluginError` when the name does not split on `":"` into exactly a
module path and a class name, with `PluginModuleNotFoundError` when the
module path does not import, and with `PluginClassNotFoundError` when the
imported module lacks the class; and any run aborted by a plugin
resolution error performs no dependency installation and no artifact
write. -/
theorem c7_plugin_resolution_errors (env : PluginEnv) (name : String)
    (hb : dget env.builtins name = none) :
    ((splitCh ':' name.data).length ≠ 2 →
      (resolvePlugin env name).1 = .error (.unknownPlugin name)) ∧
    (∀ m c : List Char, splitCh ':' name.data = [m, c] →
      (dget env.importableModules ⟨m⟩ = none →
        (resolvePlugin env name).1 = .error (.moduleNotFound ⟨m⟩)) ∧
      (∀ attrs, dget env.importableModules ⟨m⟩ = some attrs →
        dget attrs ⟨c⟩ = none →
        (resolvePlugin env name).1 = .error (.classNotFound ⟨m⟩ ⟨c⟩))) ∧
    (∀ (a : RunArgs) (e : PluginError), (run a).2 = some (.pluginError e) →
      (∀ d, Event.pioLibInstall d ∉ (run a).1 ∧ Event.gitFetch d ∉ (run a).1) ∧
      Event.writeArtifact ∉ (run a).1) := by
  refine ⟨?_, ?_, ?_⟩
  · intro hlen
    unfold resolvePlugin
    rw [hb]
    cases hs : splitCh ':' name.data with
    | nil => rfl
    | cons m tail =>
      cases tail with
      | nil => rfl
      | cons c tail2 =>
        cases tail2 with
        | nil =>
          exact absurd (by rw [hs]; rfl : (splitCh ':' name.data).length = 2) hlen
        | cons x tail3 => rfl
  · intro m c hs
    constructor
    · intro hmod
      simp only [resolvePlugin, hb, hs, hmod]
    · intro attrs hmod hattr
      simp only [resolvePlugin, hb, hs, hmod, hattr]
  · intro a e h
    obtain ⟨mEv, hmEv, htr⟩ := run_pluginError_trace a e h
    refine ⟨fun d => ⟨?_, ?_⟩, ?_⟩ <;> rw [htr] <;>
      rcases hmEv with rfl | rfl <;> cases a.localServer <;> simp [typeEvents]

/-- C7 (witness): the colon-free name `"nope"` yields the unknown-plugin
error, `"zz:Other"` the module-not-found error, `"mymod:Other"` the
class-not-found error; and the run configured with plugin `"nope"` aborts
without writing the artifact. -/
theorem c7_plugin_resolution_errors_witness :
    (resolvePlugin sampleEnv "nope").1 = .error (.unknownPlugin "nope") ∧
    (resolvePlugin sampleEnv "zz:Other").1 = .error (.moduleNotFound "zz") ∧
    (resolvePlugin sampleEnv "mymod:Other").1 =
      .error (.classNotFound "mymod" "Other") ∧
    Event.writeArtifact ∉ (run samplePluginErrorArgs).1 :=
  ⟨(c7_plugin_resolution_errors sampleEnv "nope" (by decide)).1 (by decide),
   ((c7_plugin_resolution_errors sampleEnv "zz:Other" (by decide)).2.1
     "zz".data "Other".data (by decide)).1 (by decide),
   (((c7_plugin_resolution_errors sampleEnv "mymod:Other" (by decide)).2.1
     "mymod".data "Other".data (by decide)).2 [("MyCls", ⟨"C"⟩)]
     (by decide) (by decide)),
   ((c7_plugin_resolution_errors sampleEnv "nope" (by decide)).2.2
     samplePluginErrorArgs (.unknownPlugin "nope") (by decide)).2⟩

/-! ## C8 — module source selection and the no-source failure -/

/-- C8: when a modules file is given (whether or not a local server is also
configured), the instances are exactly the parsed modules-file documents
and the server's module database is never read; when neither a modules
file nor a local server is configured, the run fails with the
no-modules-specified error before synthesis, capability filtering, any
dependency installation, or any artifact write. -/
theorem c8_module_source_selection :
    (∀ (a : RunArgs) (mf : List (String × InstanceDoc)) (srv : Server),
      a.modulesFileDoc = some mf → a.localServer = some srv →
      loadModules a.modulesFileDoc a.localServer = .ok (mf, []) ∧
      Event.readModuleDb ∉ (run a).1) ∧
    (∀ a : RunArgs, a.modulesFileDoc = none → a.localServer = none →
      run a = ([], some .noModules) ∧
      Event.synthesize ∉ (run a).1 ∧ Event.capabilityFilter ∉ (run a).1 ∧
      Event.writeArtifact ∉ (run a).1 ∧
      ∀ d, Event.pioLibInstall d ∉ (run a).1 ∧ Event.gitFetch d ∉ (run a).1) := by
  constructor
  · intro a mf srv h1 h2
    have hlm : loadModules a.modulesFileDoc a.localServer = .ok (mf, []) := by
      rw [h1]; rfl
    refine ⟨hlm, ?_⟩
    cases hsy : synthesizeInfo mf (loadModuleTypes (a.localServer.map Server.typeDb) a.libDirs) with
    | error e2 =>
      rw [run_eq_synthError a mf [] e2 hlm hsy]
      cases a.localServer <;> simp [typeEvents]
    | ok ms1 =>
      cases hrp : resolvePlugins a.pluginEnv a.pluginNames with
      | error e3 =>
        rw [run_eq_resolveError a mf [] ms1 e3 hlm hsy hrp]
        cases a.localServer <;> simp [typeEvents]
      | ok ps =>
        rw [run_eq_ok a mf [] ms1 ps hlm hsy hrp]
        cases a.localServer <;> simp [typeEvents, List.mem_map]
  · intro a h1 h2
    have hlm : loadModules a.modulesFileDoc a.localServer = .error .noModules := by
      rw [h1, h2]; rfl
    have hrun : run a = ([], some .noModules) := by
      have := run_eq_loadError a .noModules hlm
      rwa [h2] at this
    rw [hrun]
    exact ⟨rfl, by simp, by simp, by simp, fun d => ⟨by simp, by simp⟩⟩

/-- C8 (witness): with both a modules file and `sampleServer` configured,
the instances come from the file and the module database is not read; with
neither, the run is exactly the empty-trace no-modules failure. -/
theorem c8_module_source_selection_witness :
    (loadModules (some [("m9", ⟨"temp", []⟩)]) (some sampleServer) =
      .ok ([("m9", ⟨"temp", []⟩)], []) ∧
      Event.readModuleDb ∉
        (run { sampleArgs with modulesFileDoc := some [("m9", ⟨"temp", []⟩)] }).1) ∧
    run { sampleArgs with modulesFileDoc := none, localServer := none } =
      ([], some .noModules) :=
  ⟨c8_module_source_selection.1
      { sampleArgs with modulesFileDoc := some [("m9", ⟨"temp", []⟩)] }
      [("m9", ⟨"temp", []⟩)] sampleServer rfl rfl,
   (c8_module_source_selection.2
      { sampleArgs with modulesFileDoc := none, localServer := none }
      rfl rfl).1⟩

/-! ## C10 — the built-in plugin table takes precedence -/

/-- C10: for every plugin name present in the built-in plugin table, the
resolved plugin class is the table's entry and the dynamic
`<module-path>:<class-name>` import path is not exercised (second
component `false`). -/
theorem c10_builtin_precedence (env : PluginEnv) (name : String)
    (cls : PluginCls) (h : dget env.builtins name = some cls) :
    resolvePlugin env name = (.ok cls, false) := by
  unfold resolvePlugin
  rw [h]

/-- C10 (witness): the built-in name `"builtin1"` resolves from the table
without touching the dynamic import path. -/
theorem c10_builtin_precedence_witness :
    dget sampleEnv.builtins "builtin1" = some ⟨"B1"⟩ ∧
    resolvePlugin sampleEnv "builtin1" = (.ok ⟨"B1"⟩, false) :=
  ⟨by decide, c10_builtin_precedence sampleEnv "builtin1" ⟨"B1"⟩ (by decide)⟩

end OpenAg
